import Mathlib

/-!
Shallow embedding of `src/server.js` (nesta-signal-backend): the CSV signal
log writer `logSignalToCsv`, the card builder `buildWidgetPayload`, the
`/api/chat` polling handler, and the `/api/download_csv` endpoint, together
with theorems settling the specification claims about them.

JavaScript conventions modelled explicitly: a possibly-absent object field
is an `Option`; `x || d` treats `undefined`, the empty string and the
number 0 as falsy; a template literal renders `undefined` as the text
"undefined".
-/

namespace NestaSignal

/-- JavaScript `v || d` on a possibly-undefined string field:
`undefined` and `""` are falsy and fall back to the default. -/
def jsOrStr (v : Option String) (d : String) : String :=
  match v with
  | none => d
  | some s => if s = "" then d else s

/-- JavaScript `v || d` on a possibly-undefined number field:
`undefined` and `0` are falsy and fall back to the default. -/
def jsOrInt (v : Option Int) (d : Int) : Int :=
  match v with
  | none => d
  | some n => if n = 0 then d else n

/-- JavaScript template-literal rendering of a possibly-undefined string:
`undefined` prints as the text "undefined". -/
def jsInterp (v : Option String) : String :=
  match v with
  | none => "undefined"
  | some s => s

/-- The structured payload of a `display_signal_card` tool call, as parsed
by `JSON.parse` in the handler.  Every field may be absent (`none` models
the JavaScript `undefined` read of a missing property). -/
structure SignalData where
  title : Option String
  score : Option Int
  mission : Option String
  archetype : Option String
  hook : Option String
  sourceURL : Option String
  lenses : Option String
deriving Repr, DecidableEq

/-- A record with every field absent. -/
def emptySignal : SignalData :=
  { title := none, score := none, mission := none, archetype := none,
    hook := none, sourceURL := none, lenses := none }

/-- One row of the CSV log, as the `record` object built in
`logSignalToCsv` (src/server.js lines 45-53). -/
structure CsvRow where
  timestamp : String
  title : String
  score : Int
  mission : String
  archetype : String
  hook : String
  sourceURL : String
deriving Repr, DecidableEq

/-- The column ids of the csv-writer header configuration
(src/server.js lines 33-41), in source order. -/
def csvHeaderIds : List String :=
  ["timestamp", "title", "score", "mission", "archetype", "hook", "sourceURL"]

/-- The rendered header titles of the CSV file, in source order. -/
def csvHeaderTitles : List String :=
  ["TIMESTAMP", "TITLE", "SCORE", "MISSION", "ARCHETYPE", "HOOK", "SOURCE"]

/-- The `record` object of `logSignalToCsv`: each cell is the data field
with the JavaScript `||` default applied; `ts` is the write-time clock
value (`new Date().toISOString()`). -/
def makeRecord (ts : String) (data : SignalData) : CsvRow :=
  { timestamp := ts
    title := jsOrStr data.title "Unknown"
    score := jsOrInt data.score 0
    mission := jsOrStr data.mission "Adj"
    archetype := jsOrStr data.archetype "Signal"
    hook := jsOrStr data.hook ""
    sourceURL := jsOrStr data.sourceURL "" }

/-- State of the CSV log file: `none` when the file does not exist,
`some rows` for an existing file holding the header and `rows`. -/
def CsvState : Type := Option (List CsvRow)

/-- `logSignalToCsv`: creates the file (header plus one row) when absent,
otherwise appends exactly one row. -/
def logSignalToCsv (ts : String) (data : SignalData) (s : CsvState) : CsvState :=
  some ((s.getD []) ++ [makeRecord ts data])

/-- A JSON-ish JavaScript value: the object trees built by
`buildWidgetPayload` and the HTTP response bodies.  `undef` models the
JavaScript value `undefined` (a property read of a missing field). -/
inductive JVal where
  | str (s : String)
  | num (n : Int)
  | bool (b : Bool)
  | undef
  | obj (fields : List (String × JVal))
  | arr (elems : List JVal)

/-- Embed a possibly-undefined string field verbatim as a JavaScript value. -/
def jvOpt (v : Option String) : JVal :=
  match v with
  | none => JVal.undef
  | some s => JVal.str s

/-- Read field `k` of a JavaScript object. -/
def JVal.getField (k : String) : JVal → Option JVal
  | JVal.obj fields => (fields.find? (fun p => p.1 == k)).map Prod.snd
  | _ => none

/-- Read index `i` of a JavaScript array. -/
def JVal.getIdx (i : Nat) : JVal → Option JVal
  | JVal.arr elems => elems.get? i
  | _ => none

/-- The badge colour computed at src/server.js line 63:
`score > 80 ? "success" : (score > 60 ? "warning" : "secondary")`. -/
def scoreColorOf (score : Int) : String :=
  if score > 80 then "success" else if score > 60 then "warning" else "secondary"

/-- `buildWidgetPayload` (src/server.js lines 60-137): the ChatKit card
tree built for a signal record, transcribed literally. -/
def buildWidgetPayload (data : SignalData) : JVal :=
  let score := jsOrInt data.score 0
  let scoreColor := scoreColorOf score
  let archetype := (jsOrStr data.archetype "SIGNAL").toUpper
  let lenses := jsOrStr data.lenses "Tech, Social"
  JVal.obj [
    ("type", JVal.str "Card"),
    ("size", JVal.str "lg"),
    ("children", JVal.arr [
      JVal.obj [
        ("type", JVal.str "Col"), ("gap", JVal.num 2),
        ("children", JVal.arr [
          JVal.obj [
            ("type", JVal.str "Row"), ("gap", JVal.num 2), ("align", JVal.str "center"),
            ("children", JVal.arr [
              JVal.obj [("type", JVal.str "Icon"), ("name", JVal.str "sparkle"),
                        ("color", JVal.str "primary")],
              JVal.obj [("type", JVal.str "Title"), ("value", JVal.str "Nesta Signal Scout"),
                        ("size", JVal.str "sm")],
              JVal.obj [("type", JVal.str "Spacer")],
              JVal.obj [("type", JVal.str "Badge"), ("label", JVal.str "Pro"),
                        ("color", JVal.str "discovery")]
            ])
          ],
          JVal.obj [("type", JVal.str "Text"),
                    ("value", JVal.str "Identify, rank, and stress-test innovation signals."),
                    ("size", JVal.str "sm"), ("color", JVal.str "secondary")]
        ])
      ],
      JVal.obj [("type", JVal.str "Divider")],
      JVal.obj [
        ("type", JVal.str "Col"), ("gap", JVal.num 2),
        ("children", JVal.arr [
          JVal.obj [("type", JVal.str "Divider"), ("flush", JVal.bool true)],
          JVal.obj [
            ("type", JVal.str "Row"), ("align", JVal.str "center"),
            ("children", JVal.arr [
              JVal.obj [("type", JVal.str "Caption"), ("value", JVal.str archetype),
                        ("size", JVal.str "sm"), ("color", JVal.str "tertiary")],
              JVal.obj [("type", JVal.str "Spacer")],
              JVal.obj [("type", JVal.str "Badge"),
                        ("label", JVal.str ("Score: " ++ toString score ++ "/100")),
                        ("color", JVal.str scoreColor)]
            ])
          ],
          JVal.obj [("type", JVal.str "Title"), ("value", jvOpt data.title),
                    ("size", JVal.str "md")],
          JVal.obj [("type", JVal.str "Text"), ("value", jvOpt data.hook),
                    ("size", JVal.str "md")],
          JVal.obj [
            ("type", JVal.str "Row"), ("gap", JVal.num 1),
            ("children", JVal.arr [
              JVal.obj [("type", JVal.str "Icon"), ("name", JVal.str "tag"),
                        ("size", JVal.str "xs"), ("color", JVal.str "tertiary")],
              JVal.obj [("type", JVal.str "Caption"), ("value", JVal.str lenses),
                        ("size", JVal.str "sm"), ("color", JVal.str "secondary")]
            ])
          ],
          JVal.obj [
            ("type", JVal.str "Row"), ("gap", JVal.num 2), ("align", JVal.str "center"),
            ("children", JVal.arr [
              JVal.obj [("type", JVal.str "Badge"), ("label", jvOpt data.mission),
                        ("color", JVal.str "info")],
              JVal.obj [("type", JVal.str "Spacer")],
              JVal.obj [("type", JVal.str "Button"), ("label", JVal.str "Use in chat"),
                        ("iconStart", JVal.str "write"), ("size", JVal.str "sm"),
                        ("onClickAction", JVal.obj [
                          ("type", JVal.str "message.insert"),
                          ("payload", JVal.obj [
                            ("text", JVal.str (jsInterp data.title ++ ": " ++ jsInterp data.hook))])])],
              JVal.obj [("type", JVal.str "Button"), ("label", JVal.str "Source"),
                        ("variant", JVal.str "outline"), ("size", JVal.str "sm"),
                        ("iconStart", JVal.str "external-link"),
                        ("onClickAction", JVal.obj [
                          ("type", JVal.str "open.url"),
                          ("payload", JVal.obj [("url", jvOpt data.sourceURL)])])]
            ])
          ]
        ])
      ]
    ])
  ]

/-- The body column of the card (third child of the card root). -/
def cardBody (j : JVal) : Option JVal :=
  (j.getField "children").bind (JVal.getIdx 2)

/-- The colour attribute of the score badge inside the card body. -/
def scoreBadgeColor (j : JVal) : Option JVal :=
  ((((cardBody j).bind (JVal.getField "children")).bind (JVal.getIdx 1)).bind
    (JVal.getField "children")).bind (JVal.getIdx 2) |>.bind (JVal.getField "color")

/-- The label of the score badge inside the card body. -/
def scoreBadgeLabel (j : JVal) : Option JVal :=
  ((((cardBody j).bind (JVal.getField "children")).bind (JVal.getIdx 1)).bind
    (JVal.getField "children")).bind (JVal.getIdx 2) |>.bind (JVal.getField "label")

/-- The value of the signal-title node inside the card body. -/
def cardTitleValue (j : JVal) : Option JVal :=
  (((cardBody j).bind (JVal.getField "children")).bind (JVal.getIdx 2)).bind
    (JVal.getField "value")

/-- The value of the hook text node inside the card body. -/
def hookTextValue (j : JVal) : Option JVal :=
  (((cardBody j).bind (JVal.getField "children")).bind (JVal.getIdx 3)).bind
    (JVal.getField "value")

/-- The value of the archetype caption inside the card body. -/
def archetypeCaptionValue (j : JVal) : Option JVal :=
  ((((cardBody j).bind (JVal.getField "children")).bind (JVal.getIdx 1)).bind
    (JVal.getField "children")).bind (JVal.getIdx 0) |>.bind (JVal.getField "value")

/-- The value of the lenses caption inside the card body. -/
def lensesCaptionValue (j : JVal) : Option JVal :=
  ((((cardBody j).bind (JVal.getField "children")).bind (JVal.getIdx 4)).bind
    (JVal.getField "children")).bind (JVal.getIdx 1) |>.bind (JVal.getField "value")

/-- The label of the mission badge in the action row of the card body. -/
def missionBadgeLabel (j : JVal) : Option JVal :=
  ((((cardBody j).bind (JVal.getField "children")).bind (JVal.getIdx 5)).bind
    (JVal.getField "children")).bind (JVal.getIdx 0) |>.bind (JVal.getField "label")

/-- The text payload of the "Use in chat" button's insert action. -/
def insertActionText (j : JVal) : Option JVal :=
  (((((((cardBody j).bind (JVal.getField "children")).bind (JVal.getIdx 5)).bind
    (JVal.getField "children")).bind (JVal.getIdx 2)).bind
    (JVal.getField "onClickAction")).bind (JVal.getField "payload")).bind
    (JVal.getField "text")

/-- The url payload of the "Source" button's open action. -/
def sourceActionUrl (j : JVal) : Option JVal :=
  (((((((cardBody j).bind (JVal.getField "children")).bind (JVal.getIdx 5)).bind
    (JVal.getField "children")).bind (JVal.getIdx 3)).bind
    (JVal.getField "onClickAction")).bind (JVal.getField "payload")).bind
    (JVal.getField "url")

/-- One element of a request body's `messages` array; its `content`
property may be absent. -/
structure ChatMessage where
  content : Option String
deriving Repr, DecidableEq

/-- The request body of `POST /api/chat`: possibly a `messages` array,
possibly a flat `text` field. -/
structure ChatBody where
  messages : Option (List ChatMessage)
  text : Option String
deriving Repr, DecidableEq

/-- Message extraction at src/server.js lines 144-149: start from the
fallback "Find top signals"; when `messages` is present and non-empty take
the last element's `content` (even if it is undefined or empty); otherwise
when `text` is truthy take it. -/
def extractUserMessage (b : ChatBody) : Option String :=
  match b.messages with
  | some (m :: ms) => ((m :: ms).getLast (List.cons_ne_nil m ms)).content
  | _ =>
    match b.text with
    | some t => if t = "" then some "Find top signals" else some t
    | none => some "Find top signals"

/-- A tool call's argument string, seen through `JSON.parse` (an external
JavaScript builtin): either the parse throws, carrying a runtime error
message, or it yields a parsed record. -/
inductive ArgPayload where
  | malformed (errMsg : String)
  | wellFormed (data : SignalData)
deriving Repr, DecidableEq

/-- A requested tool call: a function name and its argument string. -/
structure ToolCall where
  name : String
  arguments : ArgPayload
deriving Repr, DecidableEq

/-- A polled run status, as inspected by the handler.  `inProgress`
covers every status other than the five the code tests for
(queued, in_progress, ...). -/
inductive RunStatus where
  | completed
  | failed
  | cancelled
  | expired
  | requires_action (toolCalls : List ToolCall)
  | inProgress (label : String)
deriving Repr, DecidableEq

/-- An observable external effect of one handler run. -/
inductive Effect where
  | appendLog (r : CsvRow)
  | submitToolOutputs
  | waitOneSecond
  | fetchRunStatus
deriving Repr, DecidableEq

/-- How one `/api/chat` invocation ends inside the try block:
a card return, a text reply, a thrown error, or — when the supplied
status trace runs out before a terminal event — still polling. -/
inductive ChatOutcome where
  | card (w : JVal)
  | textReply (content : String)
  | thrown (msg : String)
  | stillPolling

/-- The message of the error thrown at src/server.js line 168. -/
def runFailedMsg (statusName : String) : String :=
  "Run failed with status: " ++ statusName

/-- The polling loop of `POST /api/chat` (src/server.js lines 163-207),
driven by the trace of statuses the poll returns, with the store state
threaded through and the external effects recorded.  `finalText` is the
text of the thread's most recent message, read on the completed path. -/
def runLoop (ts finalText : String) :
    List RunStatus → CsvState → ChatOutcome × CsvState × List Effect
  | [], store => (ChatOutcome.stillPolling, store, [])
  | status :: rest, store =>
    match status with
    | RunStatus.completed => (ChatOutcome.textReply finalText, store, [])
    | RunStatus.failed => (ChatOutcome.thrown (runFailedMsg "failed"), store, [])
    | RunStatus.cancelled => (ChatOutcome.thrown (runFailedMsg "cancelled"), store, [])
    | RunStatus.expired => (ChatOutcome.thrown (runFailedMsg "expired"), store, [])
    | RunStatus.requires_action toolCalls =>
      match toolCalls.find? (fun tc => tc.name == "display_signal_card") with
      | some tc =>
        match tc.arguments with
        | ArgPayload.malformed errMsg => (ChatOutcome.thrown errMsg, store, [])
        | ArgPayload.wellFormed d =>
          (ChatOutcome.card (buildWidgetPayload d),
           logSignalToCsv ts d store,
           [Effect.appendLog (makeRecord ts d)])
      | none =>
        let r := runLoop ts finalText rest store
        (r.1, r.2.1, Effect.waitOneSecond :: Effect.fetchRunStatus :: r.2.2)
    | RunStatus.inProgress _ =>
      let r := runLoop ts finalText rest store
      (r.1, r.2.1, Effect.waitOneSecond :: Effect.fetchRunStatus :: r.2.2)

/-- A response body sent by the server. -/
inductive RespBody where
  | widget (w : JVal)
  | assistantMsg (content : String)
  | errObj (msg : String)
  | plainText (s : String)
  | csvDownload (header : List String) (rows : List CsvRow)

/-- An HTTP response: status code and body. -/
structure HttpResponse where
  status : Nat
  body : RespBody

/-- The HTTP boundary of `/api/chat`: 200 with the card or text reply,
500 with `{error: message}` for anything thrown (the catch at
src/server.js lines 209-212); no response yet while still polling. -/
def chatResponse : ChatOutcome → Option HttpResponse
  | ChatOutcome.card w => some { status := 200, body := RespBody.widget w }
  | ChatOutcome.textReply content =>
      some { status := 200, body := RespBody.assistantMsg content }
  | ChatOutcome.thrown msg => some { status := 500, body := RespBody.errObj msg }
  | ChatOutcome.stillPolling => none

/-- One `/api/chat` invocation: the polling loop wrapped by the HTTP
boundary, returning the response (when one is sent within the trace),
the resulting store state and the recorded effects. -/
def handleChat (ts finalText : String) (statuses : List RunStatus)
    (store : CsvState) : Option HttpResponse × CsvState × List Effect :=
  let r := runLoop ts finalText statuses store
  (chatResponse r.1, r.2.1, r.2.2)

/-- Whether inspecting this status makes the loop stop polling
(return or throw) rather than wait and re-fetch. -/
def statusExits : RunStatus → Bool
  | RunStatus.completed => true
  | RunStatus.failed => true
  | RunStatus.cancelled => true
  | RunStatus.expired => true
  | RunStatus.requires_action toolCalls =>
      (toolCalls.find? (fun tc => tc.name == "display_signal_card")).isSome
  | RunStatus.inProgress _ => false

/-- `GET /api/download_csv` (src/server.js lines 216-222): 404 with a
plain text message when the file does not exist, otherwise the whole
file (header and all rows) as a download. -/
def downloadCsv : CsvState → HttpResponse
  | none => { status := 404, body := RespBody.plainText "No signals have been logged yet." }
  | some rows => { status := 200, body := RespBody.csvDownload csvHeaderTitles rows }

/-- A record carrying only a score of 85. -/
def score85 : SignalData := { emptySignal with score := some 85 }

/-- A record carrying only an out-of-range score of 150. -/
def score150 : SignalData := { emptySignal with score := some 150 }

/-- A fully populated record except for an absent hook. -/
def signalNoHook : SignalData :=
  { title := some "T", score := some 85, mission := some "M", archetype := some "A",
    hook := none, sourceURL := some "http://u", lenses := some "L" }

/-- A tool call whose function name is not the visualization action. -/
def otherCall : ToolCall :=
  { name := "other_tool", arguments := ArgPayload.wellFormed emptySignal }

/-- The error message of a thrown run failure is never empty. -/
theorem runFailedMsg_ne_empty (sname : String) : runFailedMsg sname ≠ "" := by
  unfold runFailedMsg
  intro h
  have h2 := congrArg String.length h
  rw [String.length_append] at h2
  have h3 : ("Run failed with status: ").length = 24 := rfl
  have h4 : ("" : String).length = 0 := rfl
  omega

/-- C1: when a status poll returns requires_action with a tool call whose
function name is display_signal_card, the handler takes the first such
call, parses its arguments, appends the parsed record to the log, responds
200 with the rendered card tree, and its recorded effects contain no
tool-output submission back to the agent. -/
theorem C1_card_path (ts finalText : String) (toolCalls : List ToolCall)
    (rest : List RunStatus) (store : CsvState) (tc : ToolCall) (d : SignalData)
    (hfind : toolCalls.find? (fun c => c.name == "display_signal_card") = some tc)
    (hargs : tc.arguments = ArgPayload.wellFormed d) :
    handleChat ts finalText (RunStatus.requires_action toolCalls :: rest) store =
      (some { status := 200, body := RespBody.widget (buildWidgetPayload d) },
       logSignalToCsv ts d store,
       [Effect.appendLog (makeRecord ts d)]) ∧
    Effect.submitToolOutputs ∉
      (handleChat ts finalText (RunStatus.requires_action toolCalls :: rest) store).2.2 := by
  have h1 : handleChat ts finalText (RunStatus.requires_action toolCalls :: rest) store =
      (some { status := 200, body := RespBody.widget (buildWidgetPayload d) },
       logSignalToCsv ts d store,
       [Effect.appendLog (makeRecord ts d)]) := by
    simp [handleChat, runLoop, hfind, hargs, chatResponse]
  refine ⟨h1, ?_⟩
  rw [h1]
  simp

/-- C1 witness at a concrete one-call trace. -/
theorem C1_card_path_witness :
    handleChat "t0" "done"
        [RunStatus.requires_action
          [{ name := "display_signal_card", arguments := ArgPayload.wellFormed score85 }]] none =
      (some { status := 200, body := RespBody.widget (buildWidgetPayload score85) },
       logSignalToCsv "t0" score85 none,
       [Effect.appendLog (makeRecord "t0" score85)]) ∧
    Effect.submitToolOutputs ∉
      (handleChat "t0" "done"
        [RunStatus.requires_action
          [{ name := "display_signal_card", arguments := ArgPayload.wellFormed score85 }]] none).2.2 :=
  C1_card_path "t0" "done"
    [{ name := "display_signal_card", arguments := ArgPayload.wellFormed score85 }]
    [] none
    { name := "display_signal_card", arguments := ArgPayload.wellFormed score85 }
    score85 rfl rfl

/-- C2: the score badge colour of the rendered card is the three-way
severity tier of the defaulted score — "success" (the high tier) exactly
when score > 80, "warning" (medium) exactly when 60 < score ≤ 80,
"secondary" (low) otherwise; an absent score defaults to 0; the boundary
scores 0 and 60 give low, 61 and 80 medium, 81 and 100 high. -/
theorem C2_severity_tier_boundaries :
    (∀ d : SignalData, scoreBadgeColor (buildWidgetPayload d) =
        some (JVal.str (scoreColorOf (jsOrInt d.score 0)))) ∧
    (∀ s : Int, (scoreColorOf s = "success" ↔ 80 < s) ∧
        (scoreColorOf s = "warning" ↔ (60 < s ∧ s ≤ 80)) ∧
        (scoreColorOf s = "secondary" ↔ s ≤ 60)) ∧
    jsOrInt none 0 = 0 ∧
    scoreColorOf 0 = "secondary" ∧ scoreColorOf 60 = "secondary" ∧
    scoreColorOf 61 = "warning" ∧ scoreColorOf 80 = "warning" ∧
    scoreColorOf 81 = "success" ∧ scoreColorOf 100 = "success" := by
  refine ⟨fun d => rfl, fun s => ?_, rfl, rfl, rfl, rfl, rfl, rfl, rfl⟩
  unfold scoreColorOf
  split_ifs with h1 h2 <;> refine ⟨?_, ?_, ?_⟩ <;> simp_all <;> omega

/-- C3 counterexample: the claim includes lenses among the fields whose
missing value gets a fixed placeholder written to the row, but the writer
has no lenses column at all — appending the all-absent record writes a
seven-cell row with no lenses cell, and "lenses" is not among the writer's
column ids. -/
theorem C3_counterexample :
    logSignalToCsv "2024-01-01T00:00:00.000Z" emptySignal none =
      some [{ timestamp := "2024-01-01T00:00:00.000Z", title := "Unknown", score := 0,
              mission := "Adj", archetype := "Signal", hook := "", sourceURL := "" }] ∧
    "lenses" ∉ csvHeaderIds :=
  ⟨rfl, by decide⟩

/-- C3 (amended: the store stores no lenses value): every append writes
exactly one row, stamped with the write-time timestamp, substituting
"Unknown"/0/"Adj"/"Signal"/""/"" for absent title/score/mission/archetype/
hook/sourceURL, with the columns in the fixed source order. -/
theorem C3_defaulted_single_row (ts : String) (d : SignalData) (s : CsvState) :
    logSignalToCsv ts d s = some ((s.getD []) ++ [makeRecord ts d]) ∧
    (makeRecord ts d).timestamp = ts ∧
    (d.title = none → (makeRecord ts d).title = "Unknown") ∧
    (d.score = none → (makeRecord ts d).score = 0) ∧
    (d.mission = none → (makeRecord ts d).mission = "Adj") ∧
    (d.archetype = none → (makeRecord ts d).archetype = "Signal") ∧
    (d.hook = none → (makeRecord ts d).hook = "") ∧
    (d.sourceURL = none → (makeRecord ts d).sourceURL = "") ∧
    csvHeaderIds = ["timestamp", "title", "score", "mission", "archetype", "hook", "sourceURL"] := by
  refine ⟨rfl, rfl, ?_, ?_, ?_, ?_, ?_, ?_, rfl⟩ <;>
    intro h <;> simp [makeRecord, jsOrStr, jsOrInt, h]

/-- C3 witness: the all-absent record at a concrete timestamp. -/
theorem C3_defaulted_single_row_witness :
    logSignalToCsv "t0" emptySignal none = some [makeRecord "t0" emptySignal] ∧
    (makeRecord "t0" emptySignal).title = "Unknown" ∧
    (makeRecord "t0" emptySignal).score = 0 ∧
    (makeRecord "t0" emptySignal).mission = "Adj" ∧
    (makeRecord "t0" emptySignal).archetype = "Signal" ∧
    (makeRecord "t0" emptySignal).hook = "" ∧
    (makeRecord "t0" emptySignal).sourceURL = "" := by
  have h := C3_defaulted_single_row "t0" emptySignal none
  exact ⟨h.1, h.2.2.1 rfl, h.2.2.2.1 rfl, h.2.2.2.2.1 rfl, h.2.2.2.2.2.1 rfl,
         h.2.2.2.2.2.2.1 rfl, h.2.2.2.2.2.2.2.1 rfl⟩

/-- C4 counterexample: a messages list whose last element has undefined
(resp. empty) content makes the submitted message undefined (resp. empty),
so the claim's "never empty or undefined" clause fails. -/
theorem C4_counterexample :
    extractUserMessage { messages := some [{ content := none }], text := none } = none ∧
    extractUserMessage { messages := some [{ content := some "" }], text := some "hi" } =
      some "" :=
  ⟨rfl, rfl⟩

/-- C4 (amended: the submitted message can be empty or undefined exactly
when it comes from the last element of a non-empty messages list): the
message is the last list element's content when the list is present and
non-empty, else the flat text field when truthy, else "Find top signals";
when the messages list is absent or empty the result is defined and
non-empty. -/
theorem C4_message_selection (b : ChatBody) (m : ChatMessage)
    (ms : List ChatMessage) (t : String) :
    (b.messages = some (m :: ms) →
        extractUserMessage b = ((m :: ms).getLast (List.cons_ne_nil m ms)).content) ∧
    ((b.messages = none ∨ b.messages = some []) → b.text = some t → t ≠ "" →
        extractUserMessage b = some t) ∧
    ((b.messages = none ∨ b.messages = some []) → (b.text = none ∨ b.text = some "") →
        extractUserMessage b = some "Find top signals") ∧
    ((b.messages = none ∨ b.messages = some []) →
        ∃ s, extractUserMessage b = some s ∧ s ≠ "") := by
  obtain ⟨bm, bt⟩ := b
  refine ⟨?_, ?_, ?_, ?_⟩
  · intro h
    simp only at h
    subst h
    simp [extractUserMessage]
  · intro hm ht hne
    simp only at hm ht
    rcases hm with h | h <;> subst h <;> subst ht <;> simp [extractUserMessage, hne]
  · intro hm ht
    simp only at hm ht
    rcases hm with h | h <;> subst h <;>
      rcases ht with h2 | h2 <;> subst h2 <;> simp [extractUserMessage]
  · intro hm
    simp only at hm
    have hne : ("Find top signals" : String) ≠ "" := by decide
    rcases hm with h | h <;> subst h <;>
      cases bt with
      | none => exact ⟨"Find top signals", rfl, hne⟩
      | some t2 =>
        by_cases h2 : t2 = ""
        · subst h2
          exact ⟨"Find top signals", rfl, hne⟩
        · exact ⟨t2, by simp [extractUserMessage, h2], h2⟩

/-- C4 witness: the four selection cases at concrete bodies. -/
theorem C4_message_selection_witness :
    extractUserMessage
        { messages := some [{ content := some "a" }, { content := some "find signals" }],
          text := none } = some "find signals" ∧
    extractUserMessage { messages := none, text := some "hello" } = some "hello" ∧
    extractUserMessage { messages := some [], text := none } = some "Find top signals" ∧
    ∃ s, extractUserMessage { messages := none, text := none } = some s ∧ s ≠ "" := by
  have h1 := (C4_message_selection
    { messages := some [{ content := some "a" }, { content := some "find signals" }],
      text := none } { content := some "a" } [{ content := some "find signals" }] "").1 rfl
  have h2 := (C4_message_selection { messages := none, text := some "hello" }
    { content := none } [] "hello").2.1 (Or.inl rfl) rfl (by decide)
  have h3 := (C4_message_selection { messages := some [], text := none }
    { content := none } [] "").2.2.1 (Or.inr rfl) (Or.inl rfl)
  have h4 := (C4_message_selection { messages := none, text := none }
    { content := none } [] "").2.2.2 (Or.inl rfl)
  exact ⟨h1.trans rfl, h2, h3, h4⟩

/-- C5: a poll returning failed, cancelled or expired makes the handler
throw an error carrying that status; the HTTP boundary turns it into a 500
response whose error field is that non-empty message, and it turns every
thrown error into such a 500-with-error-body response. -/
theorem C5_terminal_failure (ts finalText sname : String) (st : RunStatus)
    (rest : List RunStatus) (store : CsvState)
    (h : (st = RunStatus.failed ∧ sname = "failed") ∨
         (st = RunStatus.cancelled ∧ sname = "cancelled") ∨
         (st = RunStatus.expired ∧ sname = "expired")) :
    (runLoop ts finalText (st :: rest) store).1 = ChatOutcome.thrown (runFailedMsg sname) ∧
    (handleChat ts finalText (st :: rest) store).1 =
      some { status := 500, body := RespBody.errObj (runFailedMsg sname) } ∧
    runFailedMsg sname ≠ "" ∧
    (∀ msg : String, chatResponse (ChatOutcome.thrown msg) =
      some { status := 500, body := RespBody.errObj msg }) := by
  rcases h with ⟨h1, h2⟩ | ⟨h1, h2⟩ | ⟨h1, h2⟩ <;> subst h1 <;> subst h2 <;>
    exact ⟨rfl, rfl, runFailedMsg_ne_empty _, fun msg => rfl⟩

/-- C5 witness at the failed status. -/
theorem C5_terminal_failure_witness :
    (runLoop "t0" "done" [RunStatus.failed] none).1 =
      ChatOutcome.thrown (runFailedMsg "failed") ∧
    (handleChat "t0" "done" [RunStatus.failed] none).1 =
      some { status := 500, body := RespBody.errObj (runFailedMsg "failed") } ∧
    runFailedMsg "failed" ≠ "" ∧
    (∀ msg : String, chatResponse (ChatOutcome.thrown msg) =
      some { status := 500, body := RespBody.errObj msg }) :=
  C5_terminal_failure "t0" "done" "failed" RunStatus.failed [] none (Or.inl ⟨rfl, rfl⟩)

/-- C6: a requires_action poll with no display_signal_card call neither
returns nor throws in that iteration — it waits one second, re-fetches the
status and defers entirely to the rest of the trace; and a trace made only
of non-exiting statuses (in-progress ones and non-matching requires_action
ones) leaves the loop still polling with the store untouched. -/
theorem C6_nonmatching_keeps_polling (ts finalText : String) (toolCalls : List ToolCall)
    (rest script : List RunStatus) (store : CsvState)
    (hfind : toolCalls.find? (fun tc => tc.name == "display_signal_card") = none)
    (hscript : ∀ s ∈ script, statusExits s = false) :
    runLoop ts finalText (RunStatus.requires_action toolCalls :: rest) store =
      ((runLoop ts finalText rest store).1,
       (runLoop ts finalText rest store).2.1,
       Effect.waitOneSecond :: Effect.fetchRunStatus ::
         (runLoop ts finalText rest store).2.2) ∧
    (runLoop ts finalText script store).1 = ChatOutcome.stillPolling ∧
    (runLoop ts finalText script store).2.1 = store := by
  constructor
  · simp [runLoop, hfind]
  · induction script with
    | nil => exact ⟨rfl, rfl⟩
    | cons s rest2 ih =>
      have hs := hscript s (List.mem_cons_self s rest2)
      have hrest : ∀ x ∈ rest2, statusExits x = false :=
        fun x hx => hscript x (List.mem_cons_of_mem s hx)
      have ih2 := ih hrest
      cases s with
      | completed => simp [statusExits] at hs
      | failed => simp [statusExits] at hs
      | cancelled => simp [statusExits] at hs
      | expired => simp [statusExits] at hs
      | requires_action tcs =>
        have hf : tcs.find? (fun tc => tc.name == "display_signal_card") = none := by
          cases hcase : tcs.find? (fun tc => tc.name == "display_signal_card") with
          | none => rfl
          | some tc =>
            simp only [statusExits, hcase, Option.isSome_some] at hs
            exact Bool.noConfusion hs
        refine ⟨?_, ?_⟩ <;> simp [runLoop, hf, ih2.1, ih2.2]
      | inProgress label =>
        refine ⟨?_, ?_⟩ <;> simp [runLoop, ih2.1, ih2.2]

/-- C6 witness: a non-matching action call and a two-step non-exiting trace. -/
theorem C6_nonmatching_keeps_polling_witness :
    runLoop "t0" "done" [RunStatus.requires_action [otherCall]] none =
      ((runLoop "t0" "done" [] none).1,
       (runLoop "t0" "done" [] none).2.1,
       Effect.waitOneSecond :: Effect.fetchRunStatus :: (runLoop "t0" "done" [] none).2.2) ∧
    (runLoop "t0" "done"
        [RunStatus.inProgress "queued", RunStatus.requires_action [otherCall]] none).1 =
      ChatOutcome.stillPolling ∧
    (runLoop "t0" "done"
        [RunStatus.inProgress "queued", RunStatus.requires_action [otherCall]] none).2.1 =
      none :=
  C6_nonmatching_keeps_polling "t0" "done" [otherCall] []
    [RunStatus.inProgress "queued", RunStatus.requires_action [otherCall]] none
    rfl (by decide)

/-- C7 counterexample: a parsed score of 150 is logged as 150 and displayed
as "Score: 150/100" — the claimed 0–100 range invariant fails because the
code never validates the range. -/
theorem C7_counterexample :
    (makeRecord "t0" score150).score = 150 ∧
    scoreBadgeLabel (buildWidgetPayload score150) = some (JVal.str "Score: 150/100") ∧
    ¬ ((makeRecord "t0" score150).score ≤ 100) :=
  ⟨rfl, rfl, by decide⟩

/-- C7 (amended: the score is passed through unvalidated): the logged and
the displayed score are the same `||`-defaulted value — the parsed score
when present and non-zero, 0 otherwise — and it lies in 0–100 exactly when
the agent-provided value does; no range check is performed. -/
theorem C7_score_passthrough (ts : String) (d : SignalData) :
    (makeRecord ts d).score = jsOrInt d.score 0 ∧
    scoreBadgeLabel (buildWidgetPayload d) =
      some (JVal.str ("Score: " ++ toString (jsOrInt d.score 0) ++ "/100")) ∧
    (d.score = none → jsOrInt d.score 0 = 0) ∧
    ((∀ v, d.score = some v → 0 ≤ v ∧ v ≤ 100) →
      0 ≤ jsOrInt d.score 0 ∧ jsOrInt d.score 0 ≤ 100) := by
  refine ⟨rfl, rfl, fun h => by simp [jsOrInt, h], fun h => ?_⟩
  cases hs : d.score with
  | none => simp [jsOrInt]
  | some v =>
    have hv := h v hs
    unfold jsOrInt
    show (0 ≤ if v = 0 then (0 : Int) else v) ∧ (if v = 0 then (0 : Int) else v) ≤ 100
    split_ifs with h0 <;> omega

/-- C7 witness: absent score defaults to 0; an in-range score stays in range. -/
theorem C7_score_passthrough_witness :
    jsOrInt emptySignal.score 0 = 0 ∧
    (0 ≤ jsOrInt score85.score 0 ∧ jsOrInt score85.score 0 ≤ 100) := by
  refine ⟨(C7_score_passthrough "t0" emptySignal).2.2.1 rfl,
          (C7_score_passthrough "t0" score85).2.2.2 ?_⟩
  intro v hv
  rw [show score85.score = some 85 from rfl] at hv
  injection hv with h85
  omega

/-- C8: the download endpoint answers 404 with a plain text message while
the log file does not exist, and after any append it answers 200 with the
whole file — header and all rows — as a download. -/
theorem C8_download_states (store : CsvState) (ts : String) (d : SignalData) :
    downloadCsv none =
      { status := 404, body := RespBody.plainText "No signals have been logged yet." } ∧
    downloadCsv (logSignalToCsv ts d store) =
      { status := 200,
        body := RespBody.csvDownload csvHeaderTitles ((store.getD []) ++ [makeRecord ts d]) } :=
  ⟨rfl, rfl⟩

/-- C9: a matching display_signal_card call whose argument string fails to
parse makes the handler respond 500 with the parse error, with the store
state unchanged and no append effect recorded — the parse happens strictly
before the append. -/
theorem C9_malformed_args (ts finalText errMsg : String) (toolCalls : List ToolCall)
    (rest : List RunStatus) (store : CsvState) (tc : ToolCall)
    (hfind : toolCalls.find? (fun c => c.name == "display_signal_card") = some tc)
    (hargs : tc.arguments = ArgPayload.malformed errMsg) :
    (handleChat ts finalText (RunStatus.requires_action toolCalls :: rest) store).1 =
      some { status := 500, body := RespBody.errObj errMsg } ∧
    (handleChat ts finalText (RunStatus.requires_action toolCalls :: rest) store).2.1 =
      store ∧
    (handleChat ts finalText (RunStatus.requires_action toolCalls :: rest) store).2.2 =
      [] := by
  refine ⟨?_, ?_, ?_⟩ <;> simp [handleChat, runLoop, hfind, hargs, chatResponse]

/-- C9 witness: a concrete malformed argument string. -/
theorem C9_malformed_args_witness :
    (handleChat "t0" "done"
        [RunStatus.requires_action
          [{ name := "display_signal_card",
             arguments := ArgPayload.malformed "Unexpected token i in JSON at position 0" }]]
        none).1 =
      some { status := 500,
             body := RespBody.errObj "Unexpected token i in JSON at position 0" } ∧
    (handleChat "t0" "done"
        [RunStatus.requires_action
          [{ name := "display_signal_card",
             arguments := ArgPayload.malformed "Unexpected token i in JSON at position 0" }]]
        none).2.1 = none ∧
    (handleChat "t0" "done"
        [RunStatus.requires_action
          [{ name := "display_signal_card",
             arguments := ArgPayload.malformed "Unexpected token i in JSON at position 0" }]]
        none).2.2 = [] :=
  C9_malformed_args "t0" "done" "Unexpected token i in JSON at position 0"
    [{ name := "display_signal_card",
       arguments := ArgPayload.malformed "Unexpected token i in JSON at position 0" }]
    [] none
    { name := "display_signal_card",
      arguments := ArgPayload.malformed "Unexpected token i in JSON at position 0" }
    rfl rfl

/-- C10 counterexample: with the hook absent, the insert-button payload
text is the template string "T: undefined" — a defined string with the
hook stringified as the text "undefined", not the undefined value the
claim predicts. -/
theorem C10_counterexample :
    insertActionText (buildWidgetPayload signalNoHook) = some (JVal.str "T: undefined") ∧
    insertActionText (buildWidgetPayload signalNoHook) ≠ some JVal.undef := by
  refine ⟨rfl, fun h => ?_⟩
  rw [show insertActionText (buildWidgetPayload signalNoHook) =
        some (JVal.str "T: undefined") from rfl] at h
  injection h with h2
  exact JVal.noConfusion h2

/-- C10 (amended: the insert-button payload text stringifies absent
fields): the renderer defaults only score, archetype and lenses; title,
hook, mission and sourceURL appear verbatim — undefined when absent — in
the Title node, the Text node, the mission Badge label and the Source
button's url payload, while the insert-button payload text is the template
string rendering absent title/hook as the text "undefined". -/
theorem C10_verbatim_embedding (d : SignalData) :
    cardTitleValue (buildWidgetPayload d) = some (jvOpt d.title) ∧
    hookTextValue (buildWidgetPayload d) = some (jvOpt d.hook) ∧
    missionBadgeLabel (buildWidgetPayload d) = some (jvOpt d.mission) ∧
    sourceActionUrl (buildWidgetPayload d) = some (jvOpt d.sourceURL) ∧
    insertActionText (buildWidgetPayload d) =
      some (JVal.str (jsInterp d.title ++ ": " ++ jsInterp d.hook)) ∧
    archetypeCaptionValue (buildWidgetPayload d) =
      some (JVal.str ((jsOrStr d.archetype "SIGNAL").toUpper)) ∧
    lensesCaptionValue (buildWidgetPayload d) =
      some (JVal.str (jsOrStr d.lenses "Tech, Social")) ∧
    jvOpt none = JVal.undef ∧ jsInterp none = "undefined" :=
  ⟨rfl, rfl, rfl, rfl, rfl, rfl, rfl, rfl, rfl⟩

end NestaSignal
